import Mathlib

/-!
Shallow embedding of `ectl.py` (ESXi control utility) and verification of its
snapshot-tree traversal, checkpoint resolution, task protocol, and
configuration-merge logic.

Python mutable state is modelled by explicit state passing; Python exceptions
are modelled by `Except`; the remote host is modelled by an environment record
giving each submitted task its terminal outcome.
-/

set_option autoImplicit false

/-- Errors surfaced by the program. `ectl` is the `EctlException` class raised
and caught by the tool itself; `attributeError` models an uncaught Python
`AttributeError` (a `None` dereference) that escapes the tool and crashes. -/
inductive Err where
  | ectl (error : String)
  | attributeError (msg : String)
deriving DecidableEq

/-- Terminal outcome of a host-side task, as observed when the wait on the
task ends: success, or failure with a host-supplied reason. -/
inductive TaskOutcome where
  | success
  | failure (reason : String)
deriving DecidableEq

/-- Models `pyVim.task.WaitForTask`: blocks until the task is terminal and
reports its final state string, which the code compares against "success". -/
def WaitForTask : TaskOutcome → String
  | .success => "success"
  | .failure _ => "error"

/-- Embeds `exec_task` (ectl.py lines 38-41): wait for the submitted task and
raise `EctlException(error_message)` when the terminal state is not
"success". The task submission is represented by its terminal outcome. -/
def exec_task (outcome : TaskOutcome) (error_message : String) : Except Err Unit :=
  if WaitForTask outcome ≠ "success" then .error (.ectl error_message) else .ok ()

/-- Python `str.strip()` on a character list: drop leading and trailing
whitespace. -/
def pyStrip (cs : List Char) : List Char :=
  ((cs.dropWhile Char.isWhitespace).reverse.dropWhile Char.isWhitespace).reverse

/-- Value of a digit string, accumulator style; `none` on a non-digit. -/
def digitsAcc : List Char → Nat → Option Nat
  | [], acc => some acc
  | c :: rest, acc =>
    if c.isDigit then digitsAcc rest (acc * 10 + (c.toNat - '0'.toNat)) else none

/-- Value of a nonempty all-digit string; `none` otherwise. -/
def digitsVal : List Char → Option Nat
  | [] => none
  | cs => digitsAcc cs 0

/-- Models Python `int(s)` on a string: optional surrounding whitespace, an
optional sign, then a nonempty run of digits; `none` models `ValueError`. -/
def pyInt (s : String) : Option Int :=
  match pyStrip s.data with
  | '-' :: rest => (digitsVal rest).map (fun n => -(n : Int))
  | '+' :: rest => (digitsVal rest).map (fun n => (n : Int))
  | cs => (digitsVal cs).map (fun n => (n : Int))

/-- A snapshot-tree node as reported by the host
(`vim.vm.SnapshotTree`): numeric display `id`, non-unique `name`, the opaque
checkpoint reference exposed as the `snapshot` attribute (modelled by a `Nat`
handle), and the ordered `childSnapshotList`. -/
inductive Snap : Type where
  | mk (id : Int) (name : String) (snapshot : Nat) (childSnapshotList : List Snap)

/-- Display id of a node (`snap.id`). -/
def Snap.id : Snap → Int
  | .mk i _ _ _ => i

/-- Name of a node (`snap.name`), not unique within a tree. -/
def Snap.name : Snap → String
  | .mk _ n _ _ => n

/-- Opaque checkpoint reference of a node (`snap.snapshot`). -/
def Snap.snapshot : Snap → Nat
  | .mk _ _ r _ => r

/-- Ordered children of a node (`snap.childSnapshotList`). -/
def Snap.childSnapshotList : Snap → List Snap
  | .mk _ _ _ c => c

/-- The snapshot attribute of a machine when present
(`vim.vm.SnapshotInfo`): the reference of the current checkpoint
(`currentSnapshot`) and the ordered forest roots (`rootSnapshotList`). -/
structure SnapInfo where
  currentSnapshot : Nat
  rootSnapshotList : List Snap

/-- A virtual machine handle: its name and its snapshot attribute, which is
`none` when the machine has no snapshots (Python `vm.snapshot is None`). -/
structure VM where
  name : String
  snapshot : Option SnapInfo

/-- A traversal visitor in the style of class `SnapWorker`: mutable visitor
state of type `σ`, an `apply` step invoked per node, and the
`cont_iteration` flag read from the state after each `apply`. -/
structure SnapWorker (σ : Type) where
  apply : σ → Snap → σ
  cont_iteration : σ → Bool

/-- Embeds `_snap_iterator` (ectl.py lines 155-160) together with the sibling
`for` loops that drive it: the argument list is the sequence of nodes the
enclosing loop still has to pass to `_snap_iterator`. For each node the
`apply` step of the visitor runs first; if `cont_iteration` is still set the
children are walked, and in either case the loop proceeds to the later
siblings. The returned list records, in order, every node on which `apply`
was invoked. -/
def _snap_iterator {σ : Type} (w : SnapWorker σ) : List Snap → σ → σ × List Snap
  | [], st => (st, [])
  | Snap.mk i n r cs :: rest, st =>
    let s := Snap.mk i n r cs
    let st1 := w.apply st s
    if w.cont_iteration st1 then
      let p2 := _snap_iterator w cs st1
      let p3 := _snap_iterator w rest p2.1
      (p3.1, s :: (p2.2 ++ p3.2))
    else
      let p3 := _snap_iterator w rest st1
      (p3.1, s :: p3.2)

/-- Embeds `snap_iterator` (ectl.py lines 163-167): a no-op when the machine
has no snapshots, otherwise walk the forest roots in stored order. -/
def snap_iterator {σ : Type} (w : SnapWorker σ) (vm : VM) (st : σ) : σ × List Snap :=
  match vm.snapshot with
  | none => (st, [])
  | some info => _snap_iterator w info.rootSnapshotList st

/-- Depth-first pre-order listing of a snapshot forest: each node before its
children, roots and siblings in stored order. Reference specification used to
state traversal-order properties. -/
def preorder : List Snap → List Snap
  | [] => []
  | Snap.mk i n r cs :: rest => Snap.mk i n r cs :: (preorder cs ++ preorder rest)

/-- The depth guard constant `_MAX_DEPTH` (ectl.py line 74). In the source it
is consulted only by the VM-folder recursion `print_vm_info`, not by the
snapshot traversal. -/
def _MAX_DEPTH : Nat := 10

/-- Lookup mode and parsed identifier held by a `SnapFinder`: by-name keeps
the raw string, by-id holds the already-parsed integer. -/
inductive SnapIdent where
  | byName (name : String)
  | byId (id : Int)
deriving DecidableEq

/-- Visitor state of `SnapFinder`: the identifier fixed at construction, the
accumulated list of matching nodes, and the continuation flag. -/
structure FinderState where
  identifier : SnapIdent
  snaps : List Snap
  cont_iteration : Bool

/-- Embeds `SnapFinder.apply` (ectl.py lines 211-218): in by-name mode append
every node whose name equals the identifier and keep iterating; in by-id mode
append a node with matching id and clear the continuation flag. -/
def SnapFinder.apply (st : FinderState) (snap : Snap) : FinderState :=
  match st.identifier with
  | .byName nm =>
    if snap.name == nm then { st with snaps := st.snaps ++ [snap] } else st
  | .byId i =>
    if snap.id == i then
      { st with snaps := st.snaps ++ [snap], cont_iteration := false }
    else st

/-- `SnapFinder` packaged as a traversal visitor. -/
def SnapFinderWorker : SnapWorker FinderState where
  apply := SnapFinder.apply
  cont_iteration := fun st => st.cont_iteration

/-- Embeds `find_snap` (ectl.py lines 221-232). Constructing the `SnapFinder`
parses the identifier first in by-id mode (raising `Illegal snap id` on a
parse failure, before any traversal); then the tree is walked and the match
count decides the outcome: none, exactly one, or ambiguous. Also returns the
list of nodes the walk applied the finder to (empty when the constructor
raised). -/
def find_snap (vm : VM) (snapArg : String) (by_id : Bool) :
    Except Err Snap × List Snap :=
  let finder0 : Except Err FinderState :=
    if by_id then
      match pyInt snapArg with
      | none => .error (.ectl ("Illegal snap id - \x27" ++ snapArg ++ "\x27"))
      | some i => .ok ⟨.byId i, [], true⟩
    else .ok ⟨.byName snapArg, [], true⟩
  match finder0 with
  | .error e => (.error e, [])
  | .ok st0 =>
    let p := snap_iterator SnapFinderWorker vm st0
    match p.1.snaps with
    | [] =>
      (.error (.ectl ("VM \x27" ++ vm.name ++ "\x27 has no such snapshot - \x27"
        ++ snapArg ++ "\x27")), p.2)
    | [s] => (.ok s, p.2)
    | _ :: _ :: _ =>
      (.error (.ectl ("VM \x27" ++ vm.name ++ "\x27 has multiple snapshots named \x27"
        ++ snapArg ++ "\x27, use snapshot ID")), p.2)

/-- Visitor state of `CurrSnapFinder`: the reference searched for, the node
found so far, and the continuation flag. -/
structure CurrFinderState where
  snap_ref : Nat
  curr_snap : Option Snap
  cont_iteration : Bool

/-- Embeds `CurrSnapFinder.apply` (ectl.py lines 266-269): record the node
whose reference equals the searched one and stop the walk. -/
def CurrSnapFinder.apply (st : CurrFinderState) (snap : Snap) : CurrFinderState :=
  if snap.snapshot == st.snap_ref then
    { st with curr_snap := some snap, cont_iteration := false }
  else st

/-- `CurrSnapFinder` packaged as a traversal visitor. -/
def CurrSnapFinderWorker : SnapWorker CurrFinderState where
  apply := CurrSnapFinder.apply
  cont_iteration := fun st => st.cont_iteration

/-- Embeds `get_curr_snap` (ectl.py lines 272-275). Note the source reads
`vm.snapshot.currentSnapshot` unconditionally, so a machine without snapshots
makes it crash with an `AttributeError` rather than return an absent result. -/
def get_curr_snap (vm : VM) : Except Err (Option Snap) :=
  match vm.snapshot with
  | none => .error (.attributeError "\x27NoneType\x27 object has no attribute \x27currentSnapshot\x27")
  | some info =>
    .ok (snap_iterator CurrSnapFinderWorker vm ⟨info.currentSnapshot, none, true⟩).1.curr_snap

/-- Embeds `find_vm` (ectl.py lines 119-127) in its raising mode: linear scan
of the inventory by exact name, `EctlException` when absent. -/
def find_vm (vms : List VM) (vm_name : String) : Except Err VM :=
  match vms.find? (fun v => v.name == vm_name) with
  | some v => .ok v
  | none => .error (.ectl ("Unable to find VM name " ++ vm_name))

/-- Terminal outcomes the host assigns to each kind of task a command may
submit; this is the environment against which the commands run. -/
structure VMTasks where
  CreateSnapshot : TaskOutcome
  RemoveSnapshot_Task : TaskOutcome
  RevertToSnapshot_Task : TaskOutcome
  PowerOn : TaskOutcome
  PowerOff : TaskOutcome
  Reset : TaskOutcome

/-- A remote mutating call issued to the host by a command. -/
inductive RemoteCall where
  | powerOn
  | powerOff
  | reset
  | createSnapshot (name : String)
  | removeSnapshot (ref : Nat)
  | revertToSnapshot (ref : Nat)
deriving DecidableEq

/-- Embeds `start_vm` (ectl.py lines 130-132): find the VM and call
`vm.PowerOn()` directly. The returned task is discarded — the outcome in the
environment is never consulted and no wait happens. Returns the command
result and the list of remote calls issued. -/
def start_vm (vms : List VM) (tasks : VMTasks) (vm_name : String) :
    Except Err Unit × List RemoteCall :=
  match find_vm vms vm_name with
  | .error e => (.error e, [])
  | .ok _ => (.ok (), [.powerOn])

/-- Embeds `stop_vm` (ectl.py lines 135-137): find the VM and call
`vm.PowerOff()` directly, discarding the returned task. -/
def stop_vm (vms : List VM) (tasks : VMTasks) (vm_name : String) :
    Except Err Unit × List RemoteCall :=
  match find_vm vms vm_name with
  | .error e => (.error e, [])
  | .ok _ => (.ok (), [.powerOff])

/-- Embeds `reset_vm` (ectl.py lines 140-142): find the VM and call
`vm.Reset()` directly, discarding the returned task. -/
def reset_vm (vms : List VM) (tasks : VMTasks) (vm_name : String) :
    Except Err Unit × List RemoteCall :=
  match find_vm vms vm_name with
  | .error e => (.error e, [])
  | .ok _ => (.ok (), [.reset])

/-- Embeds `snap_create` (ectl.py lines 235-237): find the VM and run the
create-snapshot task through `exec_task` with label
"Error creating snapshot". -/
def snap_create (vms : List VM) (tasks : VMTasks) (vm_name snapName : String) :
    Except Err Unit × List RemoteCall :=
  match find_vm vms vm_name with
  | .error e => (.error e, [])
  | .ok _ =>
    (exec_task tasks.CreateSnapshot "Error creating snapshot", [.createSnapshot snapName])

/-- Embeds `snap_remove` (ectl.py lines 240-243): find the VM, resolve the
snapshot, then run the remove task through `exec_task` with label
"Error removing snapshots". The third component lists the nodes visited by
the resolution walk. -/
def snap_remove (vms : List VM) (tasks : VMTasks) (vm_name snapArg : String)
    (by_id : Bool) : Except Err Unit × List RemoteCall × List Snap :=
  match find_vm vms vm_name with
  | .error e => (.error e, [], [])
  | .ok vm =>
    match find_snap vm snapArg by_id with
    | (.error e, tr) => (.error e, [], tr)
    | (.ok s, tr) =>
      (exec_task tasks.RemoveSnapshot_Task "Error removing snapshots",
        [.removeSnapshot s.snapshot], tr)

/-- Embeds `snap_revert` (ectl.py lines 246-251): find the VM; with no
identifier take the target reference straight from
`vm.snapshot.currentSnapshot` (an `AttributeError` crash when `vm.snapshot`
is `None`), otherwise resolve via `find_snap`; run the revert task through
`exec_task` with label "Error reverting snapshot"; on success, when
`args.start` is set, call `vm.PowerOn()` directly, discarding its task.
Returns the result, the remote calls issued, and the nodes visited by the
resolution walk (empty when no resolution happened). -/
def snap_revert (vms : List VM) (tasks : VMTasks) (vm_name : String)
    (snapArg : Option String) (by_id : Bool) (start : Bool) :
    Except Err Unit × List RemoteCall × List Snap :=
  match find_vm vms vm_name with
  | .error e => (.error e, [], [])
  | .ok vm =>
    let target : Except Err Nat × List Snap :=
      match snapArg with
      | none =>
        match vm.snapshot with
        | none =>
          (.error (.attributeError
            "\x27NoneType\x27 object has no attribute \x27currentSnapshot\x27"), [])
        | some info => (.ok info.currentSnapshot, [])
      | some sArg =>
        match find_snap vm sArg by_id with
        | (.error e, tr) => (.error e, tr)
        | (.ok s, tr) => (.ok s.snapshot, tr)
    match target with
    | (.error e, tr) => (.error e, [], tr)
    | (.ok ref, tr) =>
      match exec_task tasks.RevertToSnapshot_Task "Error reverting snapshot" with
      | .error e => (.error e, [.revertToSnapshot ref], tr)
      | .ok _ =>
        if start then (.ok (), [.revertToSnapshot ref, .powerOn], tr)
        else (.ok (), [.revertToSnapshot ref], tr)

/-- Parsed JSON configuration object, as a key-value list of the settings the
tool reads. -/
def Config := List (String × String)

/-- Python `config[name]` with `KeyError` mapped to `none`. -/
def configGet (c : Config) (name : String) : Option String :=
  (c.find? (fun p => p.1 == name)).map (fun p => p.2)

/-- State of the configuration file on disk: absent, present but unreadable
or unparsable, or parsed to an object. -/
inductive FileState where
  | missing
  | unparsable (e : String)
  | parsed (c : Config)

/-- Embeds `read_config_file` (ectl.py lines 25-35): resolve the path (the
`--config` flag, else `~/.local/config/ectl.json`); a missing file yields
`None` with no error; a parse or read failure raises `EctlException`. -/
def read_config_file (cfgArg : Option String) (home : String) (fs : FileState) :
    Except Err (Option Config) :=
  let config_path : String :=
    match cfgArg with
    | none => home ++ "/.local/config/ectl.json"
    | some p => p
  match fs with
  | .missing => .ok none
  | .unparsable e =>
    .error (.ectl ("Error parsing " ++ config_path ++ " - \x27" ++ e ++ "\x27"))
  | .parsed c => .ok (some c)

/-- Embeds `_determine_setting` (ectl.py lines 43-51): the explicit flag wins
when given; else the config file value when the file was read and has the
key; else unset. -/
def _determine_setting (arg : Option String) (config : Option Config)
    (name : String) : Option String :=
  match arg with
  | some v => some v
  | none =>
    match config with
    | none => none
    | some c => configGet c name

/-- The three connection flags of the CLI (`--host`, `--user`,
`--password`), each `none` when not given. -/
structure ConnArgs where
  host : Option String
  user : Option String
  password : Option String

/-- Embeds `esxi_connect` (ectl.py lines 54-63, up to the connection
attempt): merge each setting via `_determine_setting`, fail with the named
missing-setting error when one is still unset, and otherwise return the
triple of values handed to `SmartConnectNoSSL` — success here means the host
is contacted with exactly these credentials. -/
def esxi_connect (config : Option Config) (args : ConnArgs) :
    Except Err (String × String × String) :=
  let host := _determine_setting args.host config "host"
  let user := _determine_setting args.user config "user"
  let pwd := _determine_setting args.password config "password"
  match host with
  | none => .error (.ectl "Missing host setting")
  | some h =>
    match user with
    | none => .error (.ectl "Missing user setting")
    | some u =>
      match pwd with
      | none => .error (.ectl "Missing password setting")
      | some p => .ok (h, u, p)

/-! ## Concrete fixtures used by witnesses and counterexamples -/

/-- A visitor that records nothing and never clears its continuation flag. -/
def collectW : SnapWorker Unit where
  apply := fun _ _ => ()
  cont_iteration := fun _ => true

/-- Leaf node B, first child of A. -/
def snapSibB : Snap := .mk 2 "B" 12 []

/-- Leaf node C, second child of A. -/
def snapSibC : Snap := .mk 3 "C" 13 []

/-- Root node A with children B and C. -/
def snapSibA : Snap := .mk 1 "A" 11 [snapSibB, snapSibC]

/-- A machine whose forest is the single tree A(B, C), current reference on
B. -/
def vmSib : VM := ⟨"vm1", some ⟨12, [snapSibA]⟩⟩

/-- Leaf node D, a second root. -/
def snapRootD : Snap := .mk 4 "D" 14 []

/-- A machine with forest roots A(B, C) and D, matching the traversal-order
example of the specification. -/
def vmABCD : VM := ⟨"vm3", some ⟨11, [snapSibA, snapRootD]⟩⟩

/-- A machine without snapshots: the snapshot attribute is absent. -/
def vmNoSnaps : VM := ⟨"plain", none⟩

/-- An environment in which every task reaches the successful terminal
state. -/
def tasksOk : VMTasks :=
  ⟨.success, .success, .success, .success, .success, .success⟩

/-- An environment in which every task reaches a failed terminal state. -/
def tasksAllFail : VMTasks :=
  ⟨.failure "power failure", .failure "power failure", .failure "power failure",
   .failure "power failure", .failure "power failure", .failure "power failure"⟩

/-- An environment in which the snapshot tasks succeed but every power task
fails. -/
def tasksPowerFail : VMTasks :=
  ⟨.success, .success, .success,
   .failure "power failure", .failure "power failure", .failure "power failure"⟩

/-- Two sibling leaves both named "daily", with ids 5 and 7, as in the
ambiguity scenario of the specification. -/
def snapDaily5 : Snap := .mk 5 "daily" 55 []

/-- Second leaf named "daily". -/
def snapDaily7 : Snap := .mk 7 "daily" 77 []

/-- A machine whose forest holds the two "daily" leaves. -/
def vmDaily : VM := ⟨"vm2", some ⟨55, [snapDaily5, snapDaily7]⟩⟩

/-- A machine whose current reference (99) is carried by no node of its
forest. -/
def vmStaleCur : VM := ⟨"vm4", some ⟨99, [.mk 1 "base" 41 []]⟩⟩

/-- A single-path forest of twelve nested nodes: node `dk` sits at depth
`k`, so `d11` and `d12` are deeper than `_MAX_DEPTH`. -/
def deepForest : List Snap :=
  [.mk 1 "d1" 1 [.mk 2 "d2" 2 [.mk 3 "d3" 3 [.mk 4 "d4" 4 [.mk 5 "d5" 5
    [.mk 6 "d6" 6 [.mk 7 "d7" 7 [.mk 8 "d8" 8 [.mk 9 "d9" 9 [.mk 10 "d10" 10
    [.mk 11 "d11" 11 [.mk 12 "d12" 12 []]]]]]]]]]]]]

/-- A machine carrying the twelve-deep chain. -/
def vmDeep : VM := ⟨"deep", some ⟨1, deepForest⟩⟩

/-- A configuration file supplying `host` and `password` but not `user`. -/
def cfgW : Config := [("host", "esxi1"), ("password", "pw")]

/-! ## Helper lemmas about the traversal -/

/-- On a failed task, `exec_task` raises `EctlException` carrying exactly the
caller-supplied label; the host reason is not consulted. -/
theorem exec_task_failure (reason error_message : String) :
    exec_task (.failure reason) error_message = .error (.ectl error_message) := rfl

/-- On a successful task, `exec_task` returns normally. -/
theorem exec_task_success (error_message : String) :
    exec_task .success error_message = .ok () := rfl

/-- A visitor that never clears its continuation flag is applied to exactly
the pre-order listing of the forest, in order. -/
theorem trace_eq_preorder {σ : Type} (w : SnapWorker σ)
    (hw : ∀ st s, w.cont_iteration (w.apply st s) = true) :
    ∀ (l : List Snap) (st : σ), (_snap_iterator w l st).2 = preorder l := by
  intro l st
  induction l, st using _snap_iterator.induct w with
  | case1 st => simp [_snap_iterator, preorder]
  | case2 i n r cs rest st s st1 hcont p2 ih1 ih2 =>
    simp only [_snap_iterator, preorder]
    simp only [hcont, if_true]
    simp [*]
  | case3 i n r cs rest st s st1 hcont ih =>
    rw [hw] at hcont
    simp at hcont

/-- Once the continuation flag is cleared (for a visitor whose `apply` never
re-sets it), walking a remaining sibling list still applies the visitor to
every node of that list, in order, but descends into none of them. -/
theorem trace_flag_false {σ : Type} (w : SnapWorker σ)
    (hmono : ∀ st s, w.cont_iteration st = false → w.cont_iteration (w.apply st s) = false) :
    ∀ (l : List Snap) (st : σ), w.cont_iteration st = false →
      (_snap_iterator w l st).2 = l := by
  intro l st
  induction l, st using _snap_iterator.induct w with
  | case1 st => intro _; simp [_snap_iterator]
  | case2 i n r cs rest st s st1 hcont p2 ih1 ih2 =>
    intro hst
    rw [hmono st s hst] at hcont
    simp at hcont
  | case3 i n r cs rest st s st1 hcont ih =>
    intro hst
    simp only [_snap_iterator]
    rw [if_neg hcont, ih (hmono st _ hst)]

/-- Induction principle matching the shape of the traversal: a property of
snapshot forests holds everywhere once it holds for the empty forest and is
preserved when a node (with its child forest) is prepended. -/
theorem snapList_ind (Q : List Snap → Prop) (h0 : Q [])
    (h1 : ∀ (i : Int) (n : String) (r : Nat) (cs rest : List Snap),
      Q cs → Q rest → Q (Snap.mk i n r cs :: rest)) :
    ∀ l, Q l
  | [] => h0
  | Snap.mk i n r cs :: rest =>
    h1 i n r cs rest (snapList_ind Q h0 h1 cs) (snapList_ind Q h0 h1 rest)

/-- `SnapFinder.apply` on a by-name state appends the node when its name
matches and leaves the identifier and continuation flag untouched. -/
theorem snapFinder_apply_byName (nm : String) (sn : List Snap) (c : Bool) (s : Snap) :
    SnapFinder.apply ⟨.byName nm, sn, c⟩ s
      = ⟨.byName nm, sn ++ (if s.name == nm then [s] else []), c⟩ := by
  simp only [SnapFinder.apply]
  split <;> simp

/-- `SnapFinder.apply` never re-sets a cleared continuation flag. -/
theorem snapFinder_mono (st : FinderState) (s : Snap) :
    SnapFinderWorker.cont_iteration st = false →
    SnapFinderWorker.cont_iteration (SnapFinderWorker.apply st s) = false := by
  obtain ⟨sid, sn, c⟩ := st
  intro h
  simp only [SnapFinderWorker] at h ⊢
  cases sid with
  | byName nm => simp only [SnapFinder.apply]; split <;> simpa using h
  | byId i => simp only [SnapFinder.apply]; split <;> simpa using h

/-- A full by-name run of the finder: the walk visits the whole forest in
pre-order, collects exactly the nodes whose name matches, and the
continuation flag is still set at the end. -/
theorem byName_run (nm : String) :
    ∀ (l : List Snap) (sn : List Snap),
      _snap_iterator SnapFinderWorker l ⟨.byName nm, sn, true⟩
        = (⟨.byName nm, sn ++ (preorder l).filter (fun s => s.name == nm), true⟩,
            preorder l) := by
  refine snapList_ind _ ?_ ?_
  · intro sn
    simp [_snap_iterator, preorder]
  · intro i n r cs rest ihcs ihrest sn
    have happ : SnapFinderWorker.apply ⟨.byName nm, sn, true⟩ (Snap.mk i n r cs)
        = ⟨.byName nm, sn ++ (if Snap.name (Snap.mk i n r cs) == nm
            then [Snap.mk i n r cs] else []), true⟩ :=
      snapFinder_apply_byName nm sn true (Snap.mk i n r cs)
    simp only [_snap_iterator, happ]
    have hcont : SnapFinderWorker.cont_iteration
        (⟨.byName nm, sn ++ (if Snap.name (Snap.mk i n r cs) == nm
            then [Snap.mk i n r cs] else []), true⟩ : FinderState) = true := rfl
    rw [if_pos hcont, ihcs, ihrest]
    simp only [preorder, Snap.name, List.filter_cons, List.filter_append]
    by_cases hn : (n == nm) = true <;> simp [hn, List.append_assoc]

/-- A list of length at least two starts with two elements. -/
theorem two_le_length_exists {α : Type} (l : List α) (h : 2 ≤ l.length) :
    ∃ a b t, l = a :: b :: t := by
  match l with
  | [] => simp at h
  | [a] => simp at h
  | a :: b :: t => exact ⟨a, b, t, rfl⟩

/-! ## Claim theorems -/

/-- Claim C1, counterexample: with the by-id finder looking for id 2 in the
forest A(B, C), the flag is cleared while applying at B, yet the sibling C —
a node neither visited before B nor equal to A or B — still has `apply`
invoked on it afterwards: the visit trace is A, B, C, not A, B. -/
theorem c1_early_stop_counterexample :
    (find_snap vmSib "2" true).2 = [snapSibA, snapSibB, snapSibC]
    ∧ SnapFinderWorker.cont_iteration
        (SnapFinderWorker.apply ⟨.byId 2, [], true⟩ snapSibB) = false
    ∧ snapSibC ≠ snapSibA ∧ snapSibC ≠ snapSibB := by
  have hp : pyInt "2" = some 2 := rfl
  refine ⟨?_, rfl, by simp [snapSibC, snapSibA], by simp [snapSibC, snapSibB]⟩
  simp [find_snap, hp, snap_iterator, _snap_iterator, SnapFinderWorker,
    SnapFinder.apply, vmSib, snapSibA, snapSibB, snapSibC, Snap.id, Snap.name]

/-- Claim C1 (amended): clearing the continuation flag stops descent, not
iteration. For any visitor whose `apply` never re-sets a cleared flag, from
any flag-cleared state the walk over a remaining node list still invokes
`apply` exactly on the top-level nodes of that list, in order — so after the
flag is cleared at X, every remaining sibling of X, of each ancestor of X,
and every later root is still applied, while no descendant of X nor of any
of those nodes is visited. -/
theorem c1_early_stop_amended {σ : Type} (w : SnapWorker σ)
    (hmono : ∀ st s, w.cont_iteration st = false → w.cont_iteration (w.apply st s) = false)
    (l : List Snap) (st : σ) (hst : w.cont_iteration st = false) :
    (_snap_iterator w l st).2 = l :=
  trace_flag_false w hmono l st hst

/-- Claim C1, witness: the by-id finder, started in a flag-cleared state,
still applies to the root A but not to the children B, C. -/
theorem c1_early_stop_amended_witness :
    (_snap_iterator SnapFinderWorker [snapSibA] ⟨.byId 2, [snapSibB], false⟩).2
      = [snapSibA] :=
  c1_early_stop_amended SnapFinderWorker snapFinder_mono [snapSibA]
    ⟨.byId 2, [snapSibB], false⟩ rfl

/-- Claim C3, counterexample: a remove task that fails with host reason
"disk locked" makes `exec_task` raise an error carrying only the label
"Error removing snapshots"; the result is identical for a different host
reason, so the reason cannot be part of the raised error. -/
theorem c3_operation_failed_counterexample :
    exec_task (.failure "disk locked") "Error removing snapshots"
        = .error (.ectl "Error removing snapshots")
    ∧ exec_task (.failure "disk locked") "Error removing snapshots"
        = exec_task (.failure "some other reason") "Error removing snapshots" :=
  ⟨rfl, rfl⟩

/-- Claim C3 (amended): on any failed terminal state, `exec_task` raises
`EctlException` carrying exactly the caller-supplied label and nothing else;
the host-supplied failure reason is discarded (the terminal state is only
compared against "success"). -/
theorem c3_operation_failed_amended (reason error_message : String) :
    exec_task (.failure reason) error_message = .error (.ectl error_message) :=
  exec_task_failure reason error_message

/-- Claim C5, counterexample: on a machine without snapshots, revert with no
explicit identifier crashes with an uncaught `AttributeError` (dereference of
`None.currentSnapshot`), not with a named `EctlException`. -/
theorem c5_empty_revert_counterexample :
    (snap_revert [vmNoSnaps] tasksOk "plain" none false false).1
      = .error (.attributeError
          "\x27NoneType\x27 object has no attribute \x27currentSnapshot\x27") := rfl

/-- Claim C5 (amended): for every machine whose snapshot attribute is absent,
revert invoked with no snapshot identifier fails with the unnamed
`AttributeError` crash, regardless of the lookup mode, the start flag, or the
task outcomes. -/
theorem c5_empty_revert_amended (vms : List VM) (tasks : VMTasks) (vm_name : String)
    (by_id start : Bool) (vm : VM)
    (hfind : find_vm vms vm_name = .ok vm) (hsnap : vm.snapshot = none) :
    (snap_revert vms tasks vm_name none by_id start).1
      = .error (.attributeError
          "\x27NoneType\x27 object has no attribute \x27currentSnapshot\x27") := by
  simp only [snap_revert, hfind, hsnap]

/-- Claim C5, witness: the amended statement at a concrete machine. -/
theorem c5_empty_revert_amended_witness :
    (snap_revert [vmNoSnaps] tasksAllFail "plain" none true true).1
      = .error (.attributeError
          "\x27NoneType\x27 object has no attribute \x27currentSnapshot\x27") :=
  c5_empty_revert_amended [vmNoSnaps] tasksAllFail "plain" true true vmNoSnaps rfl rfl

/-- Claim C2, counterexample: with revert succeeding and every power task
failing, `revert --start` returns success (the post-revert power-on failure
is swallowed), and start/stop/reset succeed as well even though their power
tasks fail — these calls are issued directly, not through `exec_task`. -/
theorem c2_task_wrap_counterexample :
    (snap_revert [vmSib] tasksPowerFail "vm1" none false true).1 = .ok ()
    ∧ (start_vm [vmSib] tasksPowerFail "vm1").1 = .ok ()
    ∧ (stop_vm [vmSib] tasksPowerFail "vm1").1 = .ok ()
    ∧ (reset_vm [vmSib] tasksPowerFail "vm1").1 = .ok () :=
  ⟨rfl, rfl, rfl, rfl⟩

/-- Claim C2 (amended): only the checkpoint mutations — create, remove,
revert — go through `exec_task`, so their task failures surface as named
errors; power on/off/reset and the post-revert power-on are invoked
directly, their task outcome is never consulted, and a power failure is not
surfaced. -/
theorem c2_task_wrap_amended (vms : List VM) (tasks : VMTasks)
    (vm_name snapName snapArg : String) (by_id : Bool) (vm : VM) (info : SnapInfo)
    (s : Snap) (tr : List Snap) (reason : String)
    (hfind : find_vm vms vm_name = .ok vm)
    (hsnap : vm.snapshot = some info)
    (hres : find_snap vm snapArg by_id = (.ok s, tr)) :
    (tasks.CreateSnapshot = .failure reason →
      (snap_create vms tasks vm_name snapName).1 = .error (.ectl "Error creating snapshot"))
    ∧ (tasks.RemoveSnapshot_Task = .failure reason →
      (snap_remove vms tasks vm_name snapArg by_id).1
        = .error (.ectl "Error removing snapshots"))
    ∧ (tasks.RevertToSnapshot_Task = .failure reason →
      (snap_revert vms tasks vm_name none by_id false).1
        = .error (.ectl "Error reverting snapshot"))
    ∧ (start_vm vms tasks vm_name).1 = .ok ()
    ∧ (stop_vm vms tasks vm_name).1 = .ok ()
    ∧ (reset_vm vms tasks vm_name).1 = .ok ()
    ∧ (tasks.RevertToSnapshot_Task = .success → tasks.PowerOn = .failure reason →
      (snap_revert vms tasks vm_name none by_id true).1 = .ok ()) := by
  refine ⟨?_, ?_, ?_, ?_, ?_, ?_, ?_⟩
  · intro h
    simp only [snap_create, hfind, h, exec_task_failure]
  · intro h
    simp only [snap_remove, hfind, hres, h, exec_task_failure]
  · intro h
    simp only [snap_revert, hfind, hsnap, h, exec_task_failure]
  · simp only [start_vm, hfind]
  · simp only [stop_vm, hfind]
  · simp only [reset_vm, hfind]
  · intro h hp
    simp only [snap_revert, hfind, hsnap, h, exec_task_success]
    simp

/-- Claim C2, witness: the amended statement at a concrete machine and
environment. -/
theorem c2_task_wrap_amended_witness :
    (tasksAllFail.CreateSnapshot = .failure "power failure" →
      (snap_create [vmSib] tasksAllFail "vm1" "nightly").1
        = .error (.ectl "Error creating snapshot"))
    ∧ (tasksAllFail.RemoveSnapshot_Task = .failure "power failure" →
      (snap_remove [vmSib] tasksAllFail "vm1" "B" false).1
        = .error (.ectl "Error removing snapshots"))
    ∧ (tasksAllFail.RevertToSnapshot_Task = .failure "power failure" →
      (snap_revert [vmSib] tasksAllFail "vm1" none false false).1
        = .error (.ectl "Error reverting snapshot"))
    ∧ (start_vm [vmSib] tasksAllFail "vm1").1 = .ok ()
    ∧ (stop_vm [vmSib] tasksAllFail "vm1").1 = .ok ()
    ∧ (reset_vm [vmSib] tasksAllFail "vm1").1 = .ok ()
    ∧ (tasksAllFail.RevertToSnapshot_Task = .success →
      tasksAllFail.PowerOn = .failure "power failure" →
      (snap_revert [vmSib] tasksAllFail "vm1" none false true).1 = .ok ()) := by
  refine c2_task_wrap_amended [vmSib] tasksAllFail "vm1" "nightly" "B" false vmSib
    ⟨12, [snapSibA]⟩ snapSibB [snapSibA, snapSibB, snapSibC] "power failure"
    rfl rfl ?_
  simp [find_snap, snap_iterator, _snap_iterator, SnapFinderWorker,
    SnapFinder.apply, vmSib, snapSibA, snapSibB, snapSibC, Snap.name]

/-- Claim C4, counterexample: the snapshot walk visits all twelve nodes of a
twelve-deep chain — including nodes deeper than `_MAX_DEPTH` — so the
traversal enforces no maximum-depth cap. -/
theorem c4_depth_cap_counterexample :
    (snap_iterator collectW vmDeep ()).2.length = 12 ∧ _MAX_DEPTH < 12 := by
  constructor
  · simp [snap_iterator, _snap_iterator, collectW, vmDeep, deepForest]
  · decide

/-- Claim C4 (amended): `snap_iterator`/`_snap_iterator` apply no depth cap:
with a visitor that never clears its continuation flag, every node of the
forest — at any depth — is visited; the walk nevertheless terminates on
every finite forest because the recursion is structural. `_MAX_DEPTH` is not
consulted by the snapshot traversal. -/
theorem c4_depth_cap_amended {σ : Type} (w : SnapWorker σ)
    (hw : ∀ st s, w.cont_iteration (w.apply st s) = true)
    (l : List Snap) (st : σ) :
    ∀ s ∈ preorder l, s ∈ (_snap_iterator w l st).2 := by
  rw [trace_eq_preorder w hw l st]
  exact fun s hs => hs

/-- Claim C4, witness: the node at depth 12 of the deep chain, beyond
`_MAX_DEPTH`, is visited. -/
theorem c4_depth_cap_amended_witness :
    Snap.mk 12 "d12" 12 [] ∈ (_snap_iterator collectW deepForest ()).2 := by
  refine c4_depth_cap_amended collectW (fun _ _ => rfl) deepForest ()
    (Snap.mk 12 "d12" 12 []) ?_
  simp [preorder, deepForest]

/-- Claim C6: in by-name mode, whenever two or more nodes of the forest carry
the searched name, resolution fails with the ambiguity error instructing use
of the snapshot id, and the walk that detected it visited the entire forest
in pre-order — the by-name visitor never clears the continuation flag. -/
theorem c6_by_name_ambiguity (vm : VM) (info : SnapInfo) (nm : String)
    (hs : vm.snapshot = some info)
    (h2 : 2 ≤ ((preorder info.rootSnapshotList).filter
        (fun s => s.name == nm)).length) :
    (find_snap vm nm false).1
      = .error (.ectl ("VM \x27" ++ vm.name ++ "\x27 has multiple snapshots named \x27"
          ++ nm ++ "\x27, use snapshot ID"))
    ∧ (find_snap vm nm false).2 = preorder info.rootSnapshotList := by
  obtain ⟨a, b, t, hft⟩ := two_le_length_exists _ h2
  have hrun := byName_run nm info.rootSnapshotList []
  simp only [List.nil_append, hft] at hrun
  simp only [find_snap, snap_iterator, hs, Bool.false_eq_true, reduceIte, hrun]
  simp

/-- Claim C6, witness: the two "daily" leaves with ids 5 and 7 make by-name
resolution of "daily" ambiguous, after a walk of the whole forest. -/
theorem c6_by_name_ambiguity_witness :
    (find_snap vmDaily "daily" false).1
      = .error (.ectl ("VM \x27" ++ vmDaily.name ++ "\x27 has multiple snapshots named \x27"
          ++ "daily" ++ "\x27, use snapshot ID"))
    ∧ (find_snap vmDaily "daily" false).2 = preorder [snapDaily5, snapDaily7] := by
  refine c6_by_name_ambiguity vmDaily ⟨55, [snapDaily5, snapDaily7]⟩ "daily" rfl ?_
  simp [preorder, snapDaily5, snapDaily7, Snap.name]

/-- Claim C7: with any visitor that never clears its continuation flag, the
walk applies the visitor to exactly the depth-first pre-order listing of the
forest: each parent before its children, roots and siblings in stored
order. -/
theorem c7_preorder_traversal {σ : Type} (w : SnapWorker σ)
    (hw : ∀ st s, w.cont_iteration (w.apply st s) = true)
    (vm : VM) (info : SnapInfo) (st : σ) (hs : vm.snapshot = some info) :
    (snap_iterator w vm st).2 = preorder info.rootSnapshotList := by
  simp only [snap_iterator, hs]
  exact trace_eq_preorder w hw info.rootSnapshotList st

/-- Claim C7, witness: on the forest with roots A(B, C) and D the visit
order is A, B, C, D. -/
theorem c7_preorder_traversal_witness :
    (snap_iterator collectW vmABCD ()).2 = [snapSibA, snapSibB, snapSibC, snapRootD] := by
  have h := c7_preorder_traversal collectW (fun _ _ => rfl) vmABCD
    ⟨11, [snapSibA, snapRootD]⟩ () rfl
  rw [h]
  simp [preorder, snapSibA, snapSibB, snapSibC, snapRootD]

/-- Claim C8: in by-id mode, an identifier that does not parse as an integer
fails with the `Illegal snap id` error raised by the finder constructor, and
no node of the tree is visited — the walk never starts. -/
theorem c8_invalid_id (vm : VM) (snapArg : String) (h : pyInt snapArg = none) :
    (find_snap vm snapArg true).1
      = .error (.ectl ("Illegal snap id - \x27" ++ snapArg ++ "\x27"))
    ∧ (find_snap vm snapArg true).2 = [] := by
  simp [find_snap, h]

/-- Claim C8, witness: the non-numeric identifier "x2" fails before any
traversal. -/
theorem c8_invalid_id_witness :
    (find_snap vmSib "x2" true).1
      = .error (.ectl ("Illegal snap id - \x27" ++ "x2" ++ "\x27"))
    ∧ (find_snap vmSib "x2" true).2 = [] :=
  c8_invalid_id vmSib "x2" rfl

/-- Claim C9: each connection setting is the explicit flag when given, else
the config file value when present; a missing config file is not an error;
and any setting still unset after the merge fails with its named
missing-setting error before the host is contacted (a successful
`esxi_connect` returns exactly the merged triple handed to the connect
call). -/
theorem c9_settings_merge (config : Option Config) (args : ConnArgs) :
    (∀ (cfgArg : Option String) (home : String),
        read_config_file cfgArg home .missing = .ok none)
    ∧ (∀ (v name : String), _determine_setting (some v) config name = some v)
    ∧ (∀ (c : Config) (name : String),
        _determine_setting none (some c) name = configGet c name)
    ∧ (∀ (name : String), _determine_setting none none name = none)
    ∧ (_determine_setting args.host config "host" = none →
        esxi_connect config args = .error (.ectl "Missing host setting"))
    ∧ (∀ h, _determine_setting args.host config "host" = some h →
        _determine_setting args.user config "user" = none →
        esxi_connect config args = .error (.ectl "Missing user setting"))
    ∧ (∀ h u, _determine_setting args.host config "host" = some h →
        _determine_setting args.user config "user" = some u →
        _determine_setting args.password config "password" = none →
        esxi_connect config args = .error (.ectl "Missing password setting"))
    ∧ (∀ h u p, _determine_setting args.host config "host" = some h →
        _determine_setting args.user config "user" = some u →
        _determine_setting args.password config "password" = some p →
        esxi_connect config args = .ok (h, u, p)) := by
  refine ⟨fun _ _ => rfl, fun _ _ => rfl, fun _ _ => rfl, fun _ => rfl, ?_, ?_, ?_, ?_⟩
  · intro hh
    simp only [esxi_connect, hh]
  · intro h hh hu
    simp only [esxi_connect, hh, hu]
  · intro h u hh hu hp
    simp only [esxi_connect, hh, hu, hp]
  · intro h u p hh hu hp
    simp only [esxi_connect, hh, hu, hp]

/-- Claim C9, witness: host from the file, user from the flag, password from
the file. -/
theorem c9_settings_merge_witness :
    esxi_connect (some cfgW) ⟨none, some "root", none⟩ = .ok ("esxi1", "root", "pw") :=
  (c9_settings_merge (some cfgW) ⟨none, some "root", none⟩).2.2.2.2.2.2.2
    "esxi1" "root" "pw" rfl rfl rfl

/-- Claim C10: revert with no identifier on a machine whose snapshot
attribute is present submits the revert task against
`vm.snapshot.currentSnapshot` directly: no node of the forest is visited, no
check relates the reference to any node (the hypotheses constrain the forest
in no way), and in particular the `get_curr_snap` tracking walk never
runs. -/
theorem c10_revert_current_direct (vms : List VM) (tasks : VMTasks)
    (vm_name : String) (by_id start : Bool) (vm : VM) (info : SnapInfo)
    (hfind : find_vm vms vm_name = .ok vm) (hsnap : vm.snapshot = some info) :
    (snap_revert vms tasks vm_name none by_id start).2.2 = []
    ∧ ((snap_revert vms tasks vm_name none by_id start).2.1).head?
        = some (.revertToSnapshot info.currentSnapshot) := by
  simp only [snap_revert, hfind, hsnap]
  cases htask : tasks.RevertToSnapshot_Task with
  | success =>
    simp only [htask, exec_task_success]
    cases start <;> simp
  | failure reason =>
    simp only [htask, exec_task_failure]
    simp

/-- Claim C10, witness: a machine whose current reference 99 is carried by no
node of its forest still has revert target 99, with no traversal — while the
tracking walk `get_curr_snap` would find no node at all. -/
theorem c10_revert_current_direct_witness :
    (snap_revert [vmStaleCur] tasksOk "vm4" none false false).2.2 = []
    ∧ ((snap_revert [vmStaleCur] tasksOk "vm4" none false false).2.1).head?
        = some (.revertToSnapshot 99)
    ∧ get_curr_snap vmStaleCur = .ok none := by
  have h := c10_revert_current_direct [vmStaleCur] tasksOk "vm4" false false vmStaleCur
    ⟨99, [.mk 1 "base" 41 []]⟩ rfl rfl
  refine ⟨h.1, h.2, ?_⟩
  simp [get_curr_snap, snap_iterator, _snap_iterator, CurrSnapFinderWorker,
    CurrSnapFinder.apply, vmStaleCur, Snap.snapshot]
